import Mathlib

/-!
Shallow embedding of the token / one-time-code subsystem of
`graphql-jwt-auth-boiler-plate` (TypeScript, TypeORM + Redis).

The embedded code lives in `src/resolvers/user.ts` (GraphQL resolvers
`register`, `login`, `changePassword`, `changeForgotPassword`,
`forgotPassword`, `verifyEmail`, `sendVerifyEmail`) and in
`src/routes/refreshToken.ts` (the `POST /refresh_token` express handler).

External collaborators are passed in as parameters:
  * `argon2.hash` / `argon2.verify` become function parameters
    `hash : String → String` and `pwVerify : String → String → Bool`
    (hash verification of a stored hash against a candidate password);
  * `generateOTP` (in `src/utils/auth.ts`, not included in the sources)
    becomes an `otp : String` parameter — every claim is independent of
    how the code is generated;
  * the Redis cache becomes an association list `Cache` with the
    operations the resolvers use (`get`, `set` with `EX`, `del`,
    `exists`), where an entry records the value together with the
    number passed as the `EX` (seconds) argument of `SET`;
  * the TypeORM user store becomes a list of `User` rows with
    `findOne`/`update ... returning("*")` counterparts;
  * `sendEmail` is modelled by returning the list of messages a call
    emits;
  * `res.cookie` is modelled by returning the cookie a call sets.
-/

set_option autoImplicit false
set_option linter.unusedVariables false

namespace JwtAuth

/-- A row of the `User` entity: id, email, username, password hash,
`token_version` counter and `verified` flag (`src/entity/User.ts` is not
included in the sources; the field list is the one the resolvers and the
spec use). -/
structure User where
  id : Nat
  email : String
  username : String
  password : String
  token_version : Nat
  verified : Bool
deriving DecidableEq

/-- Modelled from the spec: the refresh-token claim set minted by
`createRefreshToken` (`src/utils/auth.ts`, not included in the sources):
a signed token embedding `{user_id, token_version}` (spec 4.2,
`AuthPayload` in `src/utils/types.ts`).  Signature and expiry are
handled by the abstract verifier parameter of the refresh route. -/
structure RefreshToken where
  user_id : Nat
  token_version : Nat
deriving DecidableEq

/-- Modelled from the spec: the access-token claim set minted by
`createAccessToken` (`src/utils/auth.ts`, not included in the sources):
a signed token embedding the subject id (spec 4.2). -/
structure AccessToken where
  user_id : Nat
deriving DecidableEq

/-- Modelled from the spec: `createRefreshToken(user)` embeds the user's
id and current `token_version` (spec 4.2 `issue_refresh`). -/
def createRefreshToken (u : User) : RefreshToken :=
  ⟨u.id, u.token_version⟩

/-- Modelled from the spec: `createAccessToken(user)` embeds the user's
id (spec 4.2 `issue_access`). -/
def createAccessToken (u : User) : AccessToken :=
  ⟨u.id⟩

/-- Modelled from the spec: the `ACCESS_TOKEN_EXPIRES_IN` constant of
`src/utils/constants.ts` (not included in the sources).  Every claim is
independent of its value; it only travels into the `expires_in` field of
responses. -/
def ACCESS_TOKEN_EXPIRES_IN : Nat := 300

/-- Modelled from the spec: the `VERIFY_EMAIL_PREFIX` constant of
`src/utils/constants.ts` (not included in the sources) — the key
namespace for email-verification codes, keyed by user id. -/
def VERIFY_EMAIL_KEY : String := "verify-email:"

/-- Modelled from the spec: the `FORGOT_PASSWORD_PREFIX` constant of
`src/utils/constants.ts` (not included in the sources) — the key
namespace for password-reset codes, keyed by email. -/
def FORGOT_PASSWORD_KEY : String := "forgot-password:"

/-- A cache entry: the stored string value together with the number the
code passed as the `EX` argument of `redis.set` — per Redis semantics
the time-to-live in seconds. -/
structure CacheEntry where
  value : String
  ttlSeconds : Nat
deriving DecidableEq

/-- The Redis cache, as an association list from keys to entries.  Redis
keys are unique; `cacheSet` keeps that invariant. -/
abbrev Cache := List (String × CacheEntry)

/-- `redis.get key` — the stored value, if the key is live. -/
def cacheGet : Cache → String → Option String
  | [], _ => none
  | (k, e) :: rest, q => if k = q then some e.value else cacheGet rest q

/-- The full entry for a key, exposing the TTL the code requested. -/
def cacheGetEntry : Cache → String → Option CacheEntry
  | [], _ => none
  | (k, e) :: rest, q => if k = q then some e else cacheGetEntry rest q

/-- `redis.del key` — removes every binding of the key. -/
def cacheDel : Cache → String → Cache
  | [], _ => []
  | (k, e) :: rest, q =>
    if k = q then cacheDel rest q else (k, e) :: cacheDel rest q

/-- `redis.set key value "EX" n` — Redis `SET` replaces any existing
binding of the key. -/
def cacheSet (c : Cache) (q v : String) (ttl : Nat) : Cache :=
  (q, ⟨v, ttl⟩) :: cacheDel c q

/-- `redis.exists key` — the number of live keys among those asked for
(here always a single key, so 0 or 1). -/
def cacheExists (c : Cache) (q : String) : Nat :=
  if (cacheGet c q).isSome then 1 else 0

/-- Number of live bindings of a key (used to state the at-most-one-
live-code invariant). -/
def cacheCount : Cache → String → Nat
  | [], _ => 0
  | (k, _) :: rest, q =>
    if k = q then cacheCount rest q + 1 else cacheCount rest q

/-- The user store: the rows of the `user` table. -/
abbrev DB := List User

/-- `User.findOne({where: {email}})`. -/
def findByEmail : DB → String → Option User
  | [], _ => none
  | u :: rest, e => if u.email = e then some u else findByEmail rest e

/-- `User.findOne({where: {id}})`. -/
def findById : DB → Nat → Option User
  | [], _ => none
  | u :: rest, i => if u.id = i then some u else findById rest i

/-- An `update(User).set(...).where({id})` applied to the table: every
row whose id matches is rewritten by `f`. -/
def dbUpdate : DB → Nat → (User → User) → DB
  | [], _, _ => []
  | u :: rest, i, f =>
    (if u.id = i then f u else u) :: dbUpdate rest i f

/-- The first updated row, as returned by `.returning("*")` in
`result.raw[0]` (`none` models a JS `undefined` when no row matched). -/
def dbUpdateRaw0 (db : DB) (i : Nat) (f : User → User) : Option User :=
  (findById db i).map f

/-- A `res.cookie(name, value, options)` call as the resolvers make it:
name, refresh-token value, `httpOnly` flag and `path` option. -/
structure SetCookie where
  name : String
  value : RefreshToken
  httpOnly : Bool
  path : String
deriving DecidableEq

/-- One `sendEmail(to, subject, body)` call (`toAddr` is the `to`
argument; `to` is a reserved token in Lean). -/
structure Email where
  toAddr : String
  subject : String
  body : String
deriving DecidableEq

/-!
## The refresh route (`src/routes/refreshToken.ts`)

The handler reads cookie `qid`, runs `jsonwebtoken.verify` (which throws
on a missing token, a bad signature or an expired token), looks the user
up by the payload's `user_id`, compares `token_version`, and answers
either `200` with a fresh pair plus a rotated cookie or `401` with the
one generic error body produced by the surrounding `try/catch`.

`sigValid` abstracts `jsonwebtoken.verify` against
`REFRESH_TOKEN_SECRET`: it decides whether signature and expiry checks
pass for a presented token, in which case `verify` returns exactly the
claims embedded in the token (spec 4.2 `verify_refresh`).
-/

/-- The body of a successful refresh response together with the rotated
cookie the handler sets. -/
structure RefreshSuccess where
  status : Nat
  ok : Bool
  access_token : AccessToken
  expires_in : Nat
  user : User
  cookie : SetCookie
deriving DecidableEq

/-- What `POST /refresh_token` sends back. -/
inductive RefreshResponse where
  | success (s : RefreshSuccess)
  | failure (status : Nat) (error : String)
deriving DecidableEq

/-- The `POST /refresh_token` handler.  `cookie` is `req.cookies.qid`
(`none` when the cookie is absent, in which case `verify` throws). -/
def refreshRoute (sigValid : RefreshToken → Bool) (db : DB)
    (cookie : Option RefreshToken) : RefreshResponse :=
  match cookie with
  | none => .failure 401 "Failed to Refresh Token"
  | some tok =>
    if sigValid tok then
      match findById db tok.user_id with
      | none => .failure 401 "Failed to Refresh Token"
      | some user =>
        if user.token_version ≠ tok.token_version then
          .failure 401 "Failed to Refresh Token"
        else
          .success ⟨200, true, createAccessToken user, ACCESS_TOKEN_EXPIRES_IN,
            user, ⟨"qid", createRefreshToken user, true, "/refresh_token"⟩⟩
    else .failure 401 "Failed to Refresh Token"

/-- The refresh handler together with the user store it leaves behind:
the handler performs no store or cache write, so the store comes back
unchanged. -/
def refreshRouteSt (sigValid : RefreshToken → Bool) (db : DB)
    (cookie : Option RefreshToken) : RefreshResponse × DB :=
  (refreshRoute sigValid db cookie, db)

/-- The user store after a sequence of refresh requests. -/
def refreshMany (sigValid : RefreshToken → Bool) (db : DB)
    (cookies : List (Option RefreshToken)) : DB :=
  cookies.foldl (fun d c => (refreshRouteSt sigValid d c).2) db

/-- The rejection condition of the refresh route, as the claim states
it: cookie absent, or signature/expiry verification fails, or no user
with the claimed subject id exists, or the embedded `token_version`
differs from the user's current one. -/
def refreshRejectsSpec (sigValid : RefreshToken → Bool) (db : DB)
    (cookie : Option RefreshToken) : Prop :=
  cookie = none ∨
    ∃ t, cookie = some t ∧
      (sigValid t = false ∨ findById db t.user_id = none ∨
        ∃ u, findById db t.user_id = some u ∧ u.token_version ≠ t.token_version)

/-!
## The GraphQL resolvers (`src/resolvers/user.ts`)
-/

/-- A field-scoped error (`FieldError` object type). -/
structure FieldError where
  field : String
  message : String
deriving DecidableEq

/-- The `Auth` object type: access token plus `expires_in`. -/
structure Auth where
  access_token : AccessToken
  expires_in : Nat
deriving DecidableEq

/-- The `AuthResponse` object type. -/
structure AuthResponse where
  errors : Option (List FieldError)
  user : Option User
  auth : Option Auth
deriving DecidableEq

/-- The `UserResponse` object type. -/
structure UserResponse where
  errors : Option (List FieldError)
  user : Option User
deriving DecidableEq

/-- The `RegisterInput` input type. -/
structure RegisterInput where
  email : String
  username : String
  password : String
deriving DecidableEq

/-- The `LoginInput` input type. -/
structure LoginInput where
  email : String
  password : String
deriving DecidableEq

/-- The `ChangePasswordInput` input type. -/
structure ChangePasswordInput where
  oldPassword : String
  newPassword : String
deriving DecidableEq

/-- The `ChangeForgotPasswordInput` input type. -/
structure ChangeForgotPasswordInput where
  email : String
  token : String
  password : String
deriving DecidableEq

/-- Outcome of `User.create({...}).save()` as `register`'s `try/catch`
distinguishes it: a created row, a Postgres unique violation (code
`23505`) whose `detail` names `username` or `email`, or any other
creation error (which leaves `user` undefined). -/
inductive CreateResult where
  | ok (u : User)
  | uniqueViolationUsername
  | uniqueViolationEmail
  | otherError
deriving DecidableEq

/-- Everything a `register` call produces: the GraphQL response, the
user table and cache left behind, the emails sent and the cookie set. -/
structure RegisterOut where
  resp : AuthResponse
  db : DB
  cache : Cache
  emails : List Email
  cookie : Option SetCookie
deriving DecidableEq

/-- The `register` mutation.  `otp` is the value `generateOTP()`
returned, `hashedPassword` the argon2 hash of the input password, and
`createRes` the outcome of `User.create(...).save()` on the external
store. -/
def register (otp hashedPassword : String) (createRes : CreateResult)
    (db : DB) (cache : Cache) (input : RegisterInput) : RegisterOut :=
  match createRes with
  | .uniqueViolationUsername =>
    ⟨⟨some [⟨"username", "Username Taken"⟩], none, none⟩, db, cache, [], none⟩
  | .uniqueViolationEmail =>
    ⟨⟨some [⟨"email", "Email in Use"⟩], none, none⟩, db, cache, [], none⟩
  | .otherError =>
    ⟨⟨some [⟨"username", "Server Error: Unable to Create User"⟩], none, none⟩,
      db, cache, [], none⟩
  | .ok user =>
    let cache1 := cacheSet cache (VERIFY_EMAIL_KEY ++ toString user.id) otp
      (1000 * 60 * 60)
    ⟨⟨none, some user, some ⟨createAccessToken user, ACCESS_TOKEN_EXPIRES_IN⟩⟩,
      db ++ [user], cache1,
      [⟨user.email, "REMASTER - VERIFY EMAIL", "Your Token is: " ++ otp⟩],
      some ⟨"qid", createRefreshToken user, true, "/refresh_token"⟩⟩

/-- The `login` mutation: response plus the cookie it sets, if any.
`pwVerify` is `argon2.verify(storedHash, candidate)`. -/
def login (pwVerify : String → String → Bool) (db : DB)
    (input : LoginInput) : AuthResponse × Option SetCookie :=
  match findByEmail db input.email with
  | none => (⟨some [⟨"email", "Invalid Email or Password"⟩], none, none⟩, none)
  | some user =>
    if pwVerify user.password input.password then
      (⟨none, some user, some ⟨createAccessToken user, ACCESS_TOKEN_EXPIRES_IN⟩⟩,
        some ⟨"qid", createRefreshToken user, true, "/refresh_token"⟩)
    else
      (⟨some [⟨"email", "Invalid Email or Password"⟩], none, none⟩, none)

/-- The authenticated `changePassword` mutation.  `currentUser` is
`user_payload.user` attached by the `isAuth` middleware; `hash` is
`argon2.hash`.  Returns the response and the user table left behind. -/
def changePassword (pwVerify : String → String → Bool)
    (hash : String → String) (db : DB) (currentUser : User)
    (input : ChangePasswordInput) : UserResponse × DB :=
  if pwVerify currentUser.password input.oldPassword then
    (⟨none, some currentUser⟩,
      dbUpdate db currentUser.id
        (fun u => { u with password := hash input.newPassword }))
  else
    (⟨some [⟨"oldPassword", "Incorrect Password"⟩], none⟩, db)

/-- Splitting a character list at every occurrence of a separator —
the semantics of the JS `String.prototype.split` the resolver applies to
the composite `user_id:code` cache value.  (`String.splitOn` of the
standard library would be extensionally equal on these inputs but does
not reduce in the kernel, so the JS behavior is embedded directly.) -/
def splitOnChar : List Char → Char → List (List Char)
  | [], _ => [[]]
  | c :: rest, sep =>
    if c = sep then [] :: splitOnChar rest sep
    else
      match splitOnChar rest sep with
      | [] => [[c]]
      | w :: ws => (c :: w) :: ws

/-- JS `value.split(sep)` for a single-character separator. -/
def jsSplit (s : String) (sep : Char) : List String :=
  (splitOnChar s.data sep).map String.mk

/-- Decimal digit value of a character, if any. -/
def charDigitVal (c : Char) : Option Nat :=
  if '0' ≤ c ∧ c ≤ '9' then some (c.toNat - '0'.toNat) else none

/-- Accumulates leading decimal digits, stopping at the first
non-digit. -/
def parseIntJsAux : List Char → Nat → Nat
  | [], acc => acc
  | c :: rest, acc =>
    match charDigitVal c with
    | some d => parseIntJsAux rest (acc * 10 + d)
    | none => acc

/-- JS `parseInt(s)` on the non-negative decimal strings the resolver
feeds it: the number read from the leading digits, or `none` for the
`NaN` outcome when the string starts with a non-digit (sign prefixes,
whitespace skipping and radix arguments never arise here — the parsed
string is the `user_id` component `forgotPassword` wrote). -/
def parseIntJs (s : String) : Option Nat :=
  match s.data with
  | [] => none
  | c :: rest =>
    match charDigitVal c with
    | some d => some (parseIntJsAux rest d)
    | none => none

/-- Everything a `changeForgotPassword` call produces. -/
structure ChangeForgotOut where
  resp : AuthResponse
  db : DB
  cache : Cache
  cookie : Option SetCookie
deriving DecidableEq

/-- The `changeForgotPassword` mutation.  The cache value for
`FORGOT_PASSWORD_KEY ++ email` is the composite `user_id:code` string
written by `forgotPassword`; the code splits it on `":"`.  The result is
`none` only on the uncaught runtime error paths the JS would hit with a
corrupted cache value (a non-numeric id, reached after `parseInt`
returns `NaN`, or no matching user row, where `result.raw[0]` is
`undefined` and `createRefreshToken(undefined)` throws). -/
def changeForgotPassword (hash : String → String) (db : DB) (cache : Cache)
    (input : ChangeForgotPasswordInput) : Option ChangeForgotOut :=
  let key := FORGOT_PASSWORD_KEY ++ input.email
  match cacheGet cache key with
  | none =>
    some ⟨⟨some [⟨"token", "Token Expired"⟩], none, none⟩, db, cache, none⟩
  | some value =>
    let parts := jsSplit value ':'
    let userID := parts.headD ""
    let storedToken := parts[1]?
    if storedToken ≠ some input.token then
      some ⟨⟨some [⟨"token", "Token Invalid"⟩], none, none⟩, db, cache, none⟩
    else
      match parseIntJs userID with
      | none => none
      | some numUserID =>
        let upd : User → User := fun u =>
          { u with password := hash input.password,
                   token_version := u.token_version + 1 }
        match dbUpdateRaw0 db numUserID upd with
        | none => none
        | some newUser =>
          some ⟨⟨none, some newUser,
              some ⟨createAccessToken newUser, ACCESS_TOKEN_EXPIRES_IN⟩⟩,
            dbUpdate db numUserID upd,
            cacheDel cache key,
            some ⟨"qid", createRefreshToken newUser, true, "/refresh_token"⟩⟩

/-- The `forgotPassword` mutation: its boolean result, the cache left
behind and the emails sent.  It never writes the user table. -/
def forgotPassword (otp : String) (db : DB) (cache : Cache)
    (email : String) : Bool × Cache × List Email :=
  match findByEmail db email with
  | none => (true, cache, [])
  | some user =>
    let key := FORGOT_PASSWORD_KEY ++ user.email
    let cache1 := if cacheExists cache key ≠ 0 then cacheDel cache key else cache
    let cache2 := cacheSet cache1 key (toString user.id ++ ":" ++ otp)
      (1000 * 60 * 60)
    (true, cache2,
      [⟨email, "REMASTER - FORGOT PASSWORD", "Your Token is: " ++ otp⟩])

/-- The authenticated `verifyEmail` mutation: response, user table and
cache left behind.  The response's `user` is `result.raw[0]` of the
`verified := true` update. -/
def verifyEmail (db : DB) (cache : Cache) (currentUser : User)
    (token : String) : UserResponse × DB × Cache :=
  let key := VERIFY_EMAIL_KEY ++ toString currentUser.id
  match cacheGet cache key with
  | none => (⟨some [⟨"token", "Token Expired"⟩], none⟩, db, cache)
  | some storedToken =>
    if storedToken ≠ token then
      (⟨some [⟨"token", "Token Invalid"⟩], none⟩, db, cache)
    else
      (⟨none, dbUpdateRaw0 db currentUser.id (fun u => { u with verified := true })⟩,
        dbUpdate db currentUser.id (fun u => { u with verified := true }),
        cacheDel cache key)

/-- The authenticated `sendVerifyEmail` mutation: its boolean result,
the cache left behind and the emails sent. -/
def sendVerifyEmail (otp : String) (cache : Cache) (currentUser : User) :
    Bool × Cache × List Email :=
  let key := VERIFY_EMAIL_KEY ++ toString currentUser.id
  let cache1 := if cacheExists cache key ≠ 0 then cacheDel cache key else cache
  let cache2 := cacheSet cache1 key otp (1000 * 60 * 60)
  (true, cache2,
    [⟨currentUser.email, "REMASTER - VERIFY EMAIL", "Your Token is: " ++ otp⟩])

/-!
## Cache and store lemmas
-/

theorem cacheGet_del_self (c : Cache) (q : String) :
    cacheGet (cacheDel c q) q = none := by
  induction c with
  | nil => rfl
  | cons p rest ih =>
    obtain ⟨k, e⟩ := p
    by_cases h : k = q <;> simp [cacheDel, h, cacheGet, ih]

theorem cacheGet_del_ne (c : Cache) (q q' : String) (h : q' ≠ q) :
    cacheGet (cacheDel c q) q' = cacheGet c q' := by
  induction c with
  | nil => rfl
  | cons p rest ih =>
    obtain ⟨k, e⟩ := p
    by_cases hk : k = q
    · subst hk
      simp [cacheDel, cacheGet, Ne.symm h, ih]
    · by_cases hk' : k = q' <;> simp [cacheDel, hk, cacheGet, hk', ih, h]

theorem cacheCount_del_self (c : Cache) (q : String) :
    cacheCount (cacheDel c q) q = 0 := by
  induction c with
  | nil => rfl
  | cons p rest ih =>
    obtain ⟨k, e⟩ := p
    by_cases h : k = q <;> simp [cacheDel, h, cacheCount, ih]

theorem cacheGet_set_self (c : Cache) (q v : String) (ttl : Nat) :
    cacheGet (cacheSet c q v ttl) q = some v := by
  simp [cacheSet, cacheGet]

theorem cacheGetEntry_set_self (c : Cache) (q v : String) (ttl : Nat) :
    cacheGetEntry (cacheSet c q v ttl) q = some ⟨v, ttl⟩ := by
  simp [cacheSet, cacheGetEntry]

theorem cacheCount_set_self (c : Cache) (q v : String) (ttl : Nat) :
    cacheCount (cacheSet c q v ttl) q = 1 := by
  simp [cacheSet, cacheCount, cacheCount_del_self]

theorem splitOnChar_no_sep (l : List Char) (sep : Char) (h : sep ∉ l) :
    splitOnChar l sep = [l] := by
  induction l with
  | nil => rfl
  | cons c rest ih =>
    simp only [List.mem_cons, not_or] at h
    simp [splitOnChar, Ne.symm h.1, ih h.2]

theorem splitOnChar_append_sep (l1 l2 : List Char) (sep : Char)
    (h : sep ∉ l1) :
    splitOnChar (l1 ++ sep :: l2) sep = l1 :: splitOnChar l2 sep := by
  induction l1 with
  | nil => simp [splitOnChar]
  | cons c rest ih =>
    simp only [List.mem_cons, not_or] at h
    simp [splitOnChar, Ne.symm h.1, ih h.2]

theorem jsSplit_composite (a b : String) (ha : ':' ∉ a.data)
    (hb : ':' ∉ b.data) : jsSplit (a ++ ":" ++ b) ':' = [a, b] := by
  have hdata : (a ++ ":" ++ b).data = a.data ++ ':' :: b.data := by
    simp [String.data_append]
  have hmk : ∀ s : String, String.mk s.data = s := fun _ => rfl
  simp [jsSplit, hdata, splitOnChar_append_sep _ _ _ ha,
    splitOnChar_no_sep _ _ hb, hmk]

theorem dbUpdate_map_proj {α : Type} (g : User → α) (db : DB) (i : Nat)
    (f : User → User) (h : ∀ x, g (f x) = g x) :
    (dbUpdate db i f).map g = db.map g := by
  induction db with
  | nil => rfl
  | cons u rest ih =>
    by_cases hu : u.id = i <;> simp [dbUpdate, hu, h, ih]

/-!
## Theorems
-/

/-- Claim C1: every POST to the refresh endpoint answers 401 with the
one generic error body whenever the qid cookie is absent, its
signature/expiry verification fails, no user with the claimed subject id
exists, or the embedded token_version differs from the user's current
one; in all remaining cases it answers 200 with
`{ok: true, access_token, expires_in, user}` and a new HttpOnly qid
cookie path-scoped to `/refresh_token`. -/
theorem refresh_generic_reject_or_success (sigValid : RefreshToken → Bool)
    (db : DB) (cookie : Option RefreshToken) :
    (refreshRejectsSpec sigValid db cookie →
      refreshRoute sigValid db cookie = .failure 401 "Failed to Refresh Token") ∧
    (∀ t u, cookie = some t → sigValid t = true →
      findById db t.user_id = some u → u.token_version = t.token_version →
      refreshRoute sigValid db cookie =
        .success ⟨200, true, createAccessToken u, ACCESS_TOKEN_EXPIRES_IN, u,
          ⟨"qid", createRefreshToken u, true, "/refresh_token"⟩⟩) ∧
    (¬ refreshRejectsSpec sigValid db cookie →
      ∃ t u, cookie = some t ∧ sigValid t = true ∧
        findById db t.user_id = some u ∧ u.token_version = t.token_version) := by
  refine ⟨?_, ?_, ?_⟩
  · intro h
    cases cookie with
    | none => rfl
    | some t =>
      rcases h with h | ⟨t', ht', h⟩
      · exact absurd h (by simp)
      · rw [Option.some_inj] at ht'
        subst ht'
        rcases h with hs | hf | ⟨u, hu, hv⟩
        · simp [refreshRoute, hs]
        · cases hst : sigValid t <;> simp [refreshRoute, hst, hf]
        · cases hst : sigValid t <;> simp [refreshRoute, hst, hu, hv]
  · intro t u hc hs hf hv
    subst hc
    simp [refreshRoute, hs, hf, hv]
  · intro h
    cases cookie with
    | none => exact absurd (Or.inl rfl) h
    | some t =>
      have hcond : ¬ (sigValid t = false ∨ findById db t.user_id = none ∨
          ∃ u, findById db t.user_id = some u ∧ u.token_version ≠ t.token_version) :=
        fun hx => h (Or.inr ⟨t, rfl, hx⟩)
      push_neg at hcond
      obtain ⟨h1, h2, h3⟩ := hcond
      cases hfu : findById db t.user_id with
      | none => exact absurd hfu h2
      | some u =>
        refine ⟨t, u, rfl, ?_, hfu, ?_⟩
        · cases hst : sigValid t with
          | false => exact absurd hst h1
          | true => rfl
        · exact h3 u hfu

/-- Witness for C1: the theorem applied at a concrete empty store with
the cookie absent (a rejection case) and at a one-user store with a
matching cookie (the success case). -/
theorem refresh_generic_reject_or_success_witness :
    refreshRoute (fun _ => true) [] none =
      .failure 401 "Failed to Refresh Token" ∧
    refreshRoute (fun _ => true) [⟨1, "a@x.com", "a", "h", 0, false⟩]
        (some ⟨1, 0⟩) =
      .success ⟨200, true, ⟨1⟩, ACCESS_TOKEN_EXPIRES_IN,
        ⟨1, "a@x.com", "a", "h", 0, false⟩,
        ⟨"qid", ⟨1, 0⟩, true, "/refresh_token"⟩⟩ := by
  constructor
  · exact (refresh_generic_reject_or_success (fun _ => true) [] none).1
      (Or.inl rfl)
  · exact (refresh_generic_reject_or_success (fun _ => true)
      [⟨1, "a@x.com", "a", "h", 0, false⟩] (some ⟨1, 0⟩)).2.1
      ⟨1, 0⟩ ⟨1, "a@x.com", "a", "h", 0, false⟩ rfl rfl (by decide) rfl

/-- Claim C2: a successful refresh exchange leaves the user store
unchanged (the handler performs no write), so after any sequence of
refresh requests the store is as before, and any refresh token whose
embedded token_version equals the user's stored token_version still
succeeds — the rotated cookie embeds the same unchanged
token_version. -/
theorem refresh_rotation_never_revokes (sigValid : RefreshToken → Bool)
    (db : DB) (cookies : List (Option RefreshToken)) (t : RefreshToken)
    (u : User) (hs : sigValid t = true) (hf : findById db t.user_id = some u)
    (hv : t.token_version = u.token_version) :
    refreshMany sigValid db cookies = db ∧
    refreshRoute sigValid (refreshMany sigValid db cookies) (some t) =
      .success ⟨200, true, createAccessToken u, ACCESS_TOKEN_EXPIRES_IN, u,
        ⟨"qid", ⟨u.id, u.token_version⟩, true, "/refresh_token"⟩⟩ := by
  have hmany : refreshMany sigValid db cookies = db := by
    induction cookies with
    | nil => rfl
    | cons c cs ih => simp [refreshMany, refreshRouteSt]
  refine ⟨hmany, ?_⟩
  rw [hmany]
  simp [refreshRoute, hs, hf, hv.symm, createRefreshToken, createAccessToken]

/-- Witness for C2: two intervening refreshes of the same token leave a
one-user store unchanged and the token still refreshes successfully. -/
theorem refresh_rotation_never_revokes_witness :
    refreshMany (fun _ => true) [⟨1, "a@x.com", "a", "h", 3, false⟩]
        [some ⟨1, 3⟩, some ⟨1, 3⟩] =
      [⟨1, "a@x.com", "a", "h", 3, false⟩] ∧
    refreshRoute (fun _ => true)
        (refreshMany (fun _ => true) [⟨1, "a@x.com", "a", "h", 3, false⟩]
          [some ⟨1, 3⟩, some ⟨1, 3⟩]) (some ⟨1, 3⟩) =
      .success ⟨200, true, ⟨1⟩, ACCESS_TOKEN_EXPIRES_IN,
        ⟨1, "a@x.com", "a", "h", 3, false⟩,
        ⟨"qid", ⟨1, 3⟩, true, "/refresh_token"⟩⟩ :=
  refresh_rotation_never_revokes (fun _ => true)
    [⟨1, "a@x.com", "a", "h", 3, false⟩] [some ⟨1, 3⟩, some ⟨1, 3⟩]
    ⟨1, 3⟩ ⟨1, "a@x.com", "a", "h", 3, false⟩ rfl (by decide) rfl

/-- Claim C3 (divergence): at every call site that issues a one-time
code — register, forgotPassword, sendVerifyEmail — the entry stored in
the cache carries `1000 * 60 * 60 = 3600000` as the `EX` (seconds)
argument of `redis.set`, a time-to-live of 3,600,000 seconds (1000
hours), not the 3600 seconds (one hour) the claim and the code's own
`// 1 hour` comments state. -/
theorem otp_ttl_is_3600000_seconds (otp hashedPassword : String) (u : User)
    (db : DB) (cache : Cache) (input : RegisterInput) (email : String) :
    cacheGetEntry (register otp hashedPassword (.ok u) db cache input).cache
        (VERIFY_EMAIL_KEY ++ toString u.id) = some ⟨otp, 1000 * 60 * 60⟩ ∧
    (∀ user, findByEmail db email = some user →
      cacheGetEntry (forgotPassword otp db cache email).2.1
          (FORGOT_PASSWORD_KEY ++ user.email) =
        some ⟨toString user.id ++ ":" ++ otp, 1000 * 60 * 60⟩) ∧
    cacheGetEntry (sendVerifyEmail otp cache u).2.1
        (VERIFY_EMAIL_KEY ++ toString u.id) = some ⟨otp, 1000 * 60 * 60⟩ ∧
    (1000 * 60 * 60 : Nat) ≠ 60 * 60 := by
  refine ⟨?_, ?_, ?_, by decide⟩
  · simp [register, cacheGetEntry_set_self]
  · intro user h
    simp [forgotPassword, h, cacheGetEntry_set_self]
  · simp [sendVerifyEmail, cacheGetEntry_set_self]

/-- Witness for C3: a concrete forgotPassword issuance stores the code
with 3,600,000 seconds of time-to-live. -/
theorem otp_ttl_is_3600000_seconds_witness :
    cacheGetEntry
        (forgotPassword "123456" [⟨1, "a@x.com", "a", "h", 0, false⟩] []
          "a@x.com").2.1
        (FORGOT_PASSWORD_KEY ++ "a@x.com") =
      some ⟨"1:123456", 3600000⟩ :=
  (otp_ttl_is_3600000_seconds "123456" "h" ⟨1, "a@x.com", "a", "h", 0, false⟩
      [⟨1, "a@x.com", "a", "h", 0, false⟩] [] ⟨"a@x.com", "a", "p"⟩
      "a@x.com").2.1 ⟨1, "a@x.com", "a", "h", 0, false⟩ (by decide)

/-- Claim C6: login with an unknown email and login with a known email
but failing password check return the identical field error
`email` / `Invalid Email or Password` (and no token pair, no cookie). -/
theorem login_failure_indistinguishable (pwVerify : String → String → Bool)
    (db : DB) (input : LoginInput) :
    (findByEmail db input.email = none →
      login pwVerify db input =
        (⟨some [⟨"email", "Invalid Email or Password"⟩], none, none⟩, none)) ∧
    (∀ u, findByEmail db input.email = some u →
      pwVerify u.password input.password = false →
      login pwVerify db input =
        (⟨some [⟨"email", "Invalid Email or Password"⟩], none, none⟩, none)) := by
  constructor
  · intro h
    simp [login, h]
  · intro u h hv
    simp [login, h, hv]

/-- Witness for C6: the two failure causes at concrete inputs produce
the same response. -/
theorem login_failure_indistinguishable_witness :
    login (fun _ _ => false) [] ⟨"a@x.com", "p"⟩ =
      (⟨some [⟨"email", "Invalid Email or Password"⟩], none, none⟩, none) ∧
    login (fun _ _ => false) [⟨1, "a@x.com", "a", "h", 0, false⟩]
        ⟨"a@x.com", "p"⟩ =
      (⟨some [⟨"email", "Invalid Email or Password"⟩], none, none⟩, none) :=
  ⟨(login_failure_indistinguishable (fun _ _ => false) [] ⟨"a@x.com", "p"⟩).1
      rfl,
    (login_failure_indistinguishable (fun _ _ => false)
        [⟨1, "a@x.com", "a", "h", 0, false⟩] ⟨"a@x.com", "p"⟩).2
      ⟨1, "a@x.com", "a", "h", 0, false⟩ (by decide) rfl⟩

/-- Claim C8: forgotPassword for an email matching no stored user
returns `true`, writes no cache entry and sends no email — the cache
comes back exactly as it was (and the mutation never touches the user
table at all). -/
theorem forgotPassword_unknown_email_noop (otp : String) (db : DB)
    (cache : Cache) (email : String) (h : findByEmail db email = none) :
    forgotPassword otp db cache email = (true, cache, []) := by
  simp [forgotPassword, h]

/-- Witness for C8: a concrete unknown email leaves a non-empty cache
unchanged. -/
theorem forgotPassword_unknown_email_noop_witness :
    forgotPassword "123456" [⟨1, "a@x.com", "a", "h", 0, false⟩]
        [("k", ⟨"v", 7⟩)] "b@x.com" =
      (true, [("k", ⟨"v", 7⟩)], []) :=
  forgotPassword_unknown_email_noop "123456"
    [⟨1, "a@x.com", "a", "h", 0, false⟩] [("k", ⟨"v", 7⟩)] "b@x.com"
    (by decide)

/-- Claim C9: a successful authenticated changePassword call rewrites
each matching row's password to the hash of the new password and leaves
every other column of the whole table — token_version, email, username,
verified, id — unchanged. -/
theorem changePassword_only_password_field (pwVerify : String → String → Bool)
    (hash : String → String) (db : DB) (currentUser : User)
    (input : ChangePasswordInput)
    (h : pwVerify currentUser.password input.oldPassword = true) :
    changePassword pwVerify hash db currentUser input =
      (⟨none, some currentUser⟩,
        dbUpdate db currentUser.id
          (fun x => { x with password := hash input.newPassword })) ∧
    (dbUpdate db currentUser.id
        (fun x => { x with password := hash input.newPassword })).map
      User.token_version = db.map User.token_version ∧
    (dbUpdate db currentUser.id
        (fun x => { x with password := hash input.newPassword })).map
      User.email = db.map User.email ∧
    (dbUpdate db currentUser.id
        (fun x => { x with password := hash input.newPassword })).map
      User.username = db.map User.username ∧
    (dbUpdate db currentUser.id
        (fun x => { x with password := hash input.newPassword })).map
      User.verified = db.map User.verified ∧
    (dbUpdate db currentUser.id
        (fun x => { x with password := hash input.newPassword })).map
      User.id = db.map User.id := by
  refine ⟨by simp [changePassword, h], ?_, ?_, ?_, ?_, ?_⟩ <;>
    exact dbUpdate_map_proj _ db currentUser.id _ (fun x => rfl)

/-- Witness for C9: a concrete successful password change updates only
the password column. -/
theorem changePassword_only_password_field_witness :
    changePassword (fun _ _ => true) (fun _ => "H")
        [⟨1, "a@x.com", "a", "h", 4, true⟩] ⟨1, "a@x.com", "a", "h", 4, true⟩
        ⟨"old", "new"⟩ =
      (⟨none, some ⟨1, "a@x.com", "a", "h", 4, true⟩⟩,
        [⟨1, "a@x.com", "a", "H", 4, true⟩]) ∧
    [(⟨1, "a@x.com", "a", "H", 4, true⟩ : User)].map User.token_version =
      [(⟨1, "a@x.com", "a", "h", 4, true⟩ : User)].map User.token_version := by
  have h := changePassword_only_password_field (fun _ _ => true)
    (fun _ => "H") [⟨1, "a@x.com", "a", "h", 4, true⟩]
    ⟨1, "a@x.com", "a", "h", 4, true⟩ ⟨"old", "new"⟩ rfl
  exact ⟨by rw [h.1]; decide, by decide⟩

/-- Claim C10: on every creation failure of register — username unique
violation, email unique violation, or any other error — the mutation
returns only a field error: the user table, the cache, the sent emails
and the cookie are exactly as before, and no access token is issued. -/
theorem register_failure_no_side_effects (otp hashedPassword : String)
    (db : DB) (cache : Cache) (input : RegisterInput) :
    register otp hashedPassword .uniqueViolationUsername db cache input =
      ⟨⟨some [⟨"username", "Username Taken"⟩], none, none⟩,
        db, cache, [], none⟩ ∧
    register otp hashedPassword .uniqueViolationEmail db cache input =
      ⟨⟨some [⟨"email", "Email in Use"⟩], none, none⟩, db, cache, [], none⟩ ∧
    register otp hashedPassword .otherError db cache input =
      ⟨⟨some [⟨"username", "Server Error: Unable to Create User"⟩],
        none, none⟩, db, cache, [], none⟩ :=
  ⟨rfl, rfl, rfl⟩

/-- Claim C5: a successful changeForgotPassword call — a live reset
entry for the keyed email holding `uid:code` with the presented code
matching — applies one single update to the user row setting the
password to the hash of the new password and incrementing token_version
by exactly one, deletes the entry, and responds with a fresh token pair
whose refresh token is set as an HttpOnly qid cookie path-scoped to
`/refresh_token`. -/
theorem changeForgotPassword_success_rotates (hash : String → String)
    (db : DB) (cache : Cache) (email code uidStr newpw : String) (uid : Nat)
    (u : User)
    (hget : cacheGet cache (FORGOT_PASSWORD_KEY ++ email) =
      some (uidStr ++ ":" ++ code))
    (hu : ':' ∉ uidStr.data) (hc : ':' ∉ code.data)
    (hnat : parseIntJs uidStr = some uid)
    (hfind : findById db uid = some u) :
    changeForgotPassword hash db cache ⟨email, code, newpw⟩ = some
      ⟨⟨none,
          some { u with password := hash newpw,
                        token_version := u.token_version + 1 },
          some ⟨⟨u.id⟩, ACCESS_TOKEN_EXPIRES_IN⟩⟩,
        dbUpdate db uid (fun x =>
          { x with password := hash newpw,
                   token_version := x.token_version + 1 }),
        cacheDel cache (FORGOT_PASSWORD_KEY ++ email),
        some ⟨"qid", ⟨u.id, u.token_version + 1⟩, true, "/refresh_token"⟩⟩ := by
  have hsplit := jsSplit_composite uidStr code hu hc
  simp [changeForgotPassword, hget, hsplit, hnat, dbUpdateRaw0, hfind,
    createAccessToken, createRefreshToken]

/-- Witness for C5: a concrete successful reset bumps token_version
from 0 to 1 and rehashes the password in the same row. -/
theorem changeForgotPassword_success_rotates_witness :
    changeForgotPassword (fun _ => "H") [⟨1, "a@x.com", "a", "h", 0, false⟩]
        [("forgot-password:a@x.com", ⟨"1:123456", 3600000⟩)]
        ⟨"a@x.com", "123456", "npw"⟩ = some
      ⟨⟨none, some ⟨1, "a@x.com", "a", "H", 1, false⟩,
          some ⟨⟨1⟩, ACCESS_TOKEN_EXPIRES_IN⟩⟩,
        [⟨1, "a@x.com", "a", "H", 1, false⟩], [],
        some ⟨"qid", ⟨1, 1⟩, true, "/refresh_token"⟩⟩ := by
  have h := changeForgotPassword_success_rotates (fun _ => "H")
    [⟨1, "a@x.com", "a", "h", 0, false⟩]
    [("forgot-password:a@x.com", ⟨"1:123456", 3600000⟩)]
    "a@x.com" "123456" "1" "npw" 1 ⟨1, "a@x.com", "a", "h", 0, false⟩
    (by decide) (by decide) (by decide) (by decide) (by decide)
  rw [h]
  decide

/-- Claim C4: for both verify-and-consume operations — verifyEmail
keyed by the authenticated user's id and changeForgotPassword keyed by
email — an absent cache entry fails with the `Token Expired` field
error; a present entry whose stored code differs from the presented one
fails with `Token Invalid` and leaves the entry (and all state) in
place; a matching code deletes the entry and succeeds, so replaying the
same correct code right after the success fails with `Token Expired`. -/
theorem verify_and_consume_once (db : DB) (cache : Cache)
    (currentUser : User) (tok : String) (hash : String → String)
    (email code uidStr newpw : String) (uid : Nat) (u : User) :
    (cacheGet cache (VERIFY_EMAIL_KEY ++ toString currentUser.id) = none →
      verifyEmail db cache currentUser tok =
        (⟨some [⟨"token", "Token Expired"⟩], none⟩, db, cache)) ∧
    (∀ s, cacheGet cache (VERIFY_EMAIL_KEY ++ toString currentUser.id) =
        some s → s ≠ tok →
      verifyEmail db cache currentUser tok =
        (⟨some [⟨"token", "Token Invalid"⟩], none⟩, db, cache)) ∧
    (cacheGet cache (VERIFY_EMAIL_KEY ++ toString currentUser.id) =
        some tok →
      verifyEmail db cache currentUser tok =
        (⟨none, dbUpdateRaw0 db currentUser.id
            (fun x => { x with verified := true })⟩,
          dbUpdate db currentUser.id (fun x => { x with verified := true }),
          cacheDel cache (VERIFY_EMAIL_KEY ++ toString currentUser.id)) ∧
      (verifyEmail
          (dbUpdate db currentUser.id (fun x => { x with verified := true }))
          (cacheDel cache (VERIFY_EMAIL_KEY ++ toString currentUser.id))
          currentUser tok).1 =
        ⟨some [⟨"token", "Token Expired"⟩], none⟩) ∧
    (cacheGet cache (FORGOT_PASSWORD_KEY ++ email) = none →
      changeForgotPassword hash db cache ⟨email, code, newpw⟩ =
        some ⟨⟨some [⟨"token", "Token Expired"⟩], none, none⟩,
          db, cache, none⟩) ∧
    (∀ stored, cacheGet cache (FORGOT_PASSWORD_KEY ++ email) =
        some (uidStr ++ ":" ++ stored) → ':' ∉ uidStr.data →
        ':' ∉ stored.data → stored ≠ code →
      changeForgotPassword hash db cache ⟨email, code, newpw⟩ =
        some ⟨⟨some [⟨"token", "Token Invalid"⟩], none, none⟩,
          db, cache, none⟩) ∧
    (cacheGet cache (FORGOT_PASSWORD_KEY ++ email) =
        some (uidStr ++ ":" ++ code) → ':' ∉ uidStr.data →
        ':' ∉ code.data → parseIntJs uidStr = some uid →
        findById db uid = some u →
      (∃ out, changeForgotPassword hash db cache ⟨email, code, newpw⟩ =
          some out ∧ out.resp.errors = none ∧
          out.cache = cacheDel cache (FORGOT_PASSWORD_KEY ++ email) ∧
          cacheGet out.cache (FORGOT_PASSWORD_KEY ++ email) = none ∧
          changeForgotPassword hash out.db out.cache ⟨email, code, newpw⟩ =
            some ⟨⟨some [⟨"token", "Token Expired"⟩], none, none⟩,
              out.db, out.cache, none⟩)) := by
  refine ⟨?_, ?_, ?_, ?_, ?_, ?_⟩
  · intro h
    simp [verifyEmail, h]
  · intro s h hne
    simp [verifyEmail, h, hne]
  · intro h
    constructor
    · simp [verifyEmail, h]
    · simp [verifyEmail, cacheGet_del_self]
  · intro h
    simp [changeForgotPassword, h]
  · intro stored hget hu hs hne
    have hsplit := jsSplit_composite uidStr stored hu hs
    simp [changeForgotPassword, hget, hsplit, hne]
  · intro hget hu hc hnat hfind
    have hsplit := jsSplit_composite uidStr code hu hc
    refine ⟨⟨⟨none,
        some { u with password := hash newpw,
                      token_version := u.token_version + 1 },
        some ⟨⟨u.id⟩, ACCESS_TOKEN_EXPIRES_IN⟩⟩,
      dbUpdate db uid (fun x =>
        { x with password := hash newpw,
                 token_version := x.token_version + 1 }),
      cacheDel cache (FORGOT_PASSWORD_KEY ++ email),
      some ⟨"qid", ⟨u.id, u.token_version + 1⟩, true, "/refresh_token"⟩⟩,
      ?_, rfl, rfl, ?_, ?_⟩
    · simp [changeForgotPassword, hget, hsplit, hnat, dbUpdateRaw0, hfind,
        createAccessToken, createRefreshToken]
    · exact cacheGet_del_self cache (FORGOT_PASSWORD_KEY ++ email)
    · simp [changeForgotPassword, cacheGet_del_self]

/-- Witness for C4: at a concrete store, the correct verification code
consumes the entry, sets `verified`, and replaying the same code right
after the success answers `Token Expired`. -/
theorem verify_and_consume_once_witness :
    verifyEmail [⟨1, "a@x.com", "a", "h", 0, false⟩]
        [("verify-email:1", ⟨"111", 3600000⟩)]
        ⟨1, "a@x.com", "a", "h", 0, false⟩ "111" =
      (⟨none, some ⟨1, "a@x.com", "a", "h", 0, true⟩⟩,
        [⟨1, "a@x.com", "a", "h", 0, true⟩], []) ∧
    (verifyEmail [⟨1, "a@x.com", "a", "h", 0, true⟩] []
        ⟨1, "a@x.com", "a", "h", 0, false⟩ "111").1 =
      ⟨some [⟨"token", "Token Expired"⟩], none⟩ := by
  have h := (verify_and_consume_once [⟨1, "a@x.com", "a", "h", 0, false⟩]
    [("verify-email:1", ⟨"111", 3600000⟩)] ⟨1, "a@x.com", "a", "h", 0, false⟩
    "111" (fun _ => "H") "a@x.com" "123456" "1" "npw" 1
    ⟨1, "a@x.com", "a", "h", 0, false⟩).2.2.1 (by decide)
  constructor
  · rw [h.1]
    decide
  · exact h.2

/-- Claim C7: issuing a fresh one-time code over an existing entry of
the same key first deletes the old entry and stores the fresh code, so
two consecutive issuances — via forgotPassword keyed by email or via
sendVerifyEmail keyed by user id — leave exactly one live entry for the
key, holding the second code, and the first code no longer verifies. -/
theorem issue_twice_one_live_code (hash : String → String)
    (otp1 otp2 : String) (db : DB) (cache : Cache) (email newpw : String)
    (user currentUser : User) (hfind : findByEmail db email = some user)
    (hne : otp1 ≠ otp2) (hu : ':' ∉ (toString user.id).data)
    (h1 : ':' ∉ otp1.data) (h2 : ':' ∉ otp2.data) :
    cacheCount
        (forgotPassword otp2 db (forgotPassword otp1 db cache email).2.1
          email).2.1
        (FORGOT_PASSWORD_KEY ++ user.email) = 1 ∧
    cacheGet
        (forgotPassword otp2 db (forgotPassword otp1 db cache email).2.1
          email).2.1
        (FORGOT_PASSWORD_KEY ++ user.email) =
      some (toString user.id ++ ":" ++ otp2) ∧
    changeForgotPassword hash db
        (forgotPassword otp2 db (forgotPassword otp1 db cache email).2.1
          email).2.1
        ⟨user.email, otp1, newpw⟩ =
      some ⟨⟨some [⟨"token", "Token Invalid"⟩], none, none⟩, db,
        (forgotPassword otp2 db (forgotPassword otp1 db cache email).2.1
          email).2.1, none⟩ ∧
    cacheCount (sendVerifyEmail otp2
          (sendVerifyEmail otp1 cache currentUser).2.1 currentUser).2.1
        (VERIFY_EMAIL_KEY ++ toString currentUser.id) = 1 ∧
    cacheGet (sendVerifyEmail otp2
          (sendVerifyEmail otp1 cache currentUser).2.1 currentUser).2.1
        (VERIFY_EMAIL_KEY ++ toString currentUser.id) = some otp2 ∧
    (verifyEmail db (sendVerifyEmail otp2
          (sendVerifyEmail otp1 cache currentUser).2.1 currentUser).2.1
        currentUser otp1).1 =
      ⟨some [⟨"token", "Token Invalid"⟩], none⟩ := by
  have hget2 : cacheGet
      (forgotPassword otp2 db (forgotPassword otp1 db cache email).2.1
        email).2.1 (FORGOT_PASSWORD_KEY ++ user.email) =
      some (toString user.id ++ ":" ++ otp2) := by
    simp [forgotPassword, hfind, cacheGet_set_self]
  have hvget2 : cacheGet (sendVerifyEmail otp2
      (sendVerifyEmail otp1 cache currentUser).2.1 currentUser).2.1
      (VERIFY_EMAIL_KEY ++ toString currentUser.id) = some otp2 := by
    simp [sendVerifyEmail, cacheGet_set_self]
  refine ⟨?_, hget2, ?_, ?_, hvget2, ?_⟩
  · simp [forgotPassword, hfind, cacheCount_set_self]
  · have hsplit := jsSplit_composite (toString user.id) otp2 hu h2
    simp [changeForgotPassword, hget2, hsplit, Ne.symm hne]
  · simp [sendVerifyEmail, cacheCount_set_self]
  · simp [verifyEmail, hvget2, Ne.symm hne]

/-- Witness for C7: concrete double issuance of a reset code leaves one
live entry holding the second code and rejects the first code as
invalid. -/
theorem issue_twice_one_live_code_witness :
    cacheCount
        (forgotPassword "222" [⟨1, "a@x.com", "a", "h", 0, false⟩]
          (forgotPassword "111" [⟨1, "a@x.com", "a", "h", 0, false⟩] []
            "a@x.com").2.1 "a@x.com").2.1
        (FORGOT_PASSWORD_KEY ++ "a@x.com") = 1 ∧
    cacheGet
        (forgotPassword "222" [⟨1, "a@x.com", "a", "h", 0, false⟩]
          (forgotPassword "111" [⟨1, "a@x.com", "a", "h", 0, false⟩] []
            "a@x.com").2.1 "a@x.com").2.1
        (FORGOT_PASSWORD_KEY ++ "a@x.com") = some "1:222" ∧
    changeForgotPassword (fun _ => "H") [⟨1, "a@x.com", "a", "h", 0, false⟩]
        (forgotPassword "222" [⟨1, "a@x.com", "a", "h", 0, false⟩]
          (forgotPassword "111" [⟨1, "a@x.com", "a", "h", 0, false⟩] []
            "a@x.com").2.1 "a@x.com").2.1
        ⟨"a@x.com", "111", "npw"⟩ =
      some ⟨⟨some [⟨"token", "Token Invalid"⟩], none, none⟩,
        [⟨1, "a@x.com", "a", "h", 0, false⟩],
        (forgotPassword "222" [⟨1, "a@x.com", "a", "h", 0, false⟩]
          (forgotPassword "111" [⟨1, "a@x.com", "a", "h", 0, false⟩] []
            "a@x.com").2.1 "a@x.com").2.1, none⟩ := by
  have h := issue_twice_one_live_code (fun _ => "H") "111" "222"
    [⟨1, "a@x.com", "a", "h", 0, false⟩] [] "a@x.com" "npw"
    ⟨1, "a@x.com", "a", "h", 0, false⟩ ⟨1, "a@x.com", "a", "h", 0, false⟩
    (by decide) (by decide) (by decide) (by decide) (by decide)
  exact ⟨h.1, h.2.1, h.2.2.1⟩

end JwtAuth
